import Mathlib

/-!
Verification of `pyads/pyads_common.py`: the error type `ADSError`, the UDP
discovery primitive `send_raw_udp_message`, and the value-decoding helpers
`type_is_string` and `get_value_from_ctype_data`.

The embedding models ctypes type descriptors (`PlcType`), ctypes data objects
(`CData`), and Python values (`Value`).  Python exceptions are modelled with
`Except PyErr`.  The one effectful function, `send_raw_udp_message`, is
modelled as the trace of socket operations it performs together with its
result, with the outcomes of the fallible socket calls supplied by an
environment record.
-/

/-- Python exception kinds that the modelled code can raise. -/
inductive PyErr where
  | attributeError
  | unicodeDecodeError
  | typeError
  | timeoutError
deriving DecidableEq, Repr

/-- A ctypes type descriptor (a `PLCTYPE_*` constant).  `string` is the
distinguished single-character string descriptor `PLCTYPE_STRING`;
`array e n` is a ctypes fixed-size array type (runtime class name
`PyCArrayType`) with element descriptor `e` and length `n`; `scalar` covers
the simple numeric descriptors (`c_int`, `c_bool`, ...) identified by name;
`structT` covers ctypes Structure subclasses such as `SAdsSymbolEntry`. -/
inductive PlcType where
  | string
  | array (elem : PlcType) (n : Nat)
  | scalar (name : String)
  | structT (name : String)
deriving DecidableEq, Repr

/-- Python check `type(plc_type).__name__ == "PyCArrayType"`: true exactly for
ctypes fixed-size array descriptors. -/
def isPyCArrayType : PlcType → Bool
  | PlcType.array _ _ => true
  | _ => false

/-- Attribute access `plc_type._type_`: the element descriptor of an array
descriptor, absent on the other descriptors. -/
def arrayElemType : PlcType → Option PlcType
  | PlcType.array t _ => Option.some t
  | _ => Option.none

/-- Embedding of `type_is_string` (pyads_common.py lines 76-88): true when the
descriptor is `PLCTYPE_STRING` itself, or is a `PyCArrayType` whose `_type_`
is `PLCTYPE_STRING`. -/
def type_is_string (plc_type : PlcType) : Bool :=
  -- If single char
  if plc_type = PlcType.string then true
  -- If char array
  else if isPyCArrayType plc_type then
    (if arrayElemType plc_type = Option.some PlcType.string then true else false)
  else false

/-- A ctypes data object (`ctypes._CData` instance), as passed to
`get_value_from_ctype_data`.
`scalarVal v` is a simple scalar instance (`c_int(5)`, ...): it has a `.value`
attribute holding the unwrapped number and is not iterable.
`strBuf bs` is a character-array instance: its `.value` attribute yields the
byte payload `bs` (as returned by ctypes, i.e. already truncated at the first
NUL byte), and iterating it yields one-byte slices.
`arr elems` is a non-character ctypes array instance: it has no `.value`
attribute and iterating it yields its elements.
`record name` is a ctypes Structure instance: no `.value`, not iterable. -/
inductive CData where
  | scalarVal (v : Int)
  | strBuf (bytes : List Nat)
  | arr (elems : List CData)
  | record (name : String)

/-- A Python value produced by `get_value_from_ctype_data`.  `pyNone` is
Python `None`; `bytes` is a Python `bytes` object; `raw d` is the ctypes
object `d` itself returned unchanged. -/
inductive Value where
  | pyNone
  | str (s : String)
  | intVal (v : Int)
  | bytes (bs : List Nat)
  | list (vs : List Value)
  | raw (d : CData)

/-- Attribute access `read_data.value`: present on simple scalars (the wrapped
number) and on character buffers (the byte payload), absent on non-character
arrays and on Structure instances. -/
def value_attr : CData → Option Value
  | CData.scalarVal v => Option.some (Value.intVal v)
  | CData.strBuf bs => Option.some (Value.bytes bs)
  | CData.arr _ => Option.none
  | CData.record _ => Option.none

/-- Iterating a ctypes array converts simple-scalar elements to their Python
number and yields every other element as the ctypes object itself. -/
def iter_elem : CData → Value
  | CData.scalarVal v => Value.intVal v
  | d => Value.raw d

/-- Python iteration `[i for i in read_data]`: defined on array instances and
on character buffers (yielding one-byte `bytes` slices), a `TypeError` on
non-iterable objects. -/
def iter_items : CData → Option (List Value)
  | CData.arr elems => Option.some (elems.map iter_elem)
  | CData.strBuf bs => Option.some (bs.map (fun b => Value.bytes [b]))
  | _ => Option.none

/-- Whether `b` is a UTF-8 continuation byte. -/
def isUtf8Cont (b : Nat) : Bool :=
  if 0x80 ≤ b ∧ b ≤ 0xBF then true else false

/-- Admissible second byte of a three-byte UTF-8 sequence led by `b1`
(rejecting overlong encodings after 0xE0 and surrogates after 0xED, as
Python's strict UTF-8 codec does). -/
def utf8Second3 (b1 b2 : Nat) : Bool :=
  if b1 = 0xE0 then (if 0xA0 ≤ b2 ∧ b2 ≤ 0xBF then true else false)
  else if b1 = 0xED then (if 0x80 ≤ b2 ∧ b2 ≤ 0x9F then true else false)
  else isUtf8Cont b2

/-- Admissible second byte of a four-byte UTF-8 sequence led by `b1`
(rejecting overlong encodings after 0xF0 and code points above U+10FFFF
after 0xF4). -/
def utf8Second4 (b1 b2 : Nat) : Bool :=
  if b1 = 0xF0 then (if 0x90 ≤ b2 ∧ b2 ≤ 0xBF then true else false)
  else if b1 = 0xF4 then (if 0x80 ≤ b2 ∧ b2 ≤ 0x8F then true else false)
  else isUtf8Cont b2

/-- Strict UTF-8 decoding of a byte list, as performed by Python's
`bytes.decode("utf-8")`: `none` models a raised `UnicodeDecodeError`.  The
first argument is fuel; it is instantiated with the length of the list, which
bounds the number of decoded code points. -/
def utf8DecodeAux : Nat → List Nat → Option (List Char)
  | _, [] => Option.some []
  | 0, _ :: _ => Option.none
  | fuel + 1, b1 :: rest =>
    if b1 < 0x80 then
      (utf8DecodeAux fuel rest).map (fun cs => Char.ofNat b1 :: cs)
    else if 0xC2 ≤ b1 ∧ b1 ≤ 0xDF then
      match rest with
      | b2 :: rest2 =>
        if isUtf8Cont b2 then
          (utf8DecodeAux fuel rest2).map
            (fun cs => Char.ofNat ((b1 - 0xC0) * 0x40 + (b2 - 0x80)) :: cs)
        else Option.none
      | [] => Option.none
    else if 0xE0 ≤ b1 ∧ b1 ≤ 0xEF then
      match rest with
      | b2 :: b3 :: rest3 =>
        if utf8Second3 b1 b2 = true ∧ isUtf8Cont b3 = true then
          (utf8DecodeAux fuel rest3).map
            (fun cs =>
              Char.ofNat ((b1 - 0xE0) * 0x1000 + (b2 - 0x80) * 0x40 + (b3 - 0x80)) :: cs)
        else Option.none
      | _ => Option.none
    else if 0xF0 ≤ b1 ∧ b1 ≤ 0xF4 then
      match rest with
      | b2 :: b3 :: b4 :: rest4 =>
        if utf8Second4 b1 b2 = true ∧ isUtf8Cont b3 = true ∧ isUtf8Cont b4 = true then
          (utf8DecodeAux fuel rest4).map
            (fun cs =>
              Char.ofNat ((b1 - 0xF0) * 0x40000 + (b2 - 0x80) * 0x1000
                + (b3 - 0x80) * 0x40 + (b4 - 0x80)) :: cs)
        else Option.none
      | _ => Option.none
    else Option.none

/-- Python `bs.decode("utf-8")` under the strict (default) error handler:
`some` of the decoded text, or `none` for a raised `UnicodeDecodeError`. -/
def utf8Decode (bs : List Nat) : Option String :=
  (utf8DecodeAux bs.length bs).map List.asString

/-- Embedding of `get_value_from_ctype_data` (pyads_common.py lines 91-117).
The source dispatches in order: `None` input, string descriptor (decoding
`read_data.value` as UTF-8), `PyCArrayType` descriptor (list comprehension
over the buffer), `hasattr(read_data, "value")`, and finally returns the
object itself.  `Except.error` models the exceptions Python would raise on
the way: `.decode` on a non-bytes `.value` or a missing `.value` attribute
(AttributeError), an invalid UTF-8 payload (UnicodeDecodeError), iteration
of a non-iterable object (TypeError). -/
def get_value_from_ctype_data (read_data : Option CData) (plc_type : PlcType) :
    Except PyErr Value :=
  match read_data with
  | Option.none => Except.ok Value.pyNone
  | Option.some d =>
    if type_is_string plc_type then
      match value_attr d with
      | Option.some (Value.bytes bs) =>
        match utf8Decode bs with
        | Option.some s => Except.ok (Value.str s)
        | Option.none => Except.error PyErr.unicodeDecodeError
      | Option.some _ => Except.error PyErr.attributeError
      | Option.none => Except.error PyErr.attributeError
    else if isPyCArrayType plc_type then
      match iter_items d with
      | Option.some items => Except.ok (Value.list items)
      | Option.none => Except.error PyErr.typeError
    else
      match value_attr d with
      | Option.some v => Except.ok v
      | Option.none => Except.ok (Value.raw d)

/-- The `ADSError` object.  `err_code = none` models the attribute never
being assigned in `__init__` (the Python constructor only sets
`self.err_code` when a code was passed). -/
structure ADSError where
  err_code : Option Int
  msg : String

/-- Embedding of `ADSError.__init__` (pyads_common.py lines 28-41).  The
external table `pyads/errorcodes.py:ERROR_CODES` is passed as an explicit
partial map; `none` from the map models the `KeyError` branch. -/
def ADSError_init (error_codes : Int → Option String) (err_code : Option Int)
    (text : Option String) : ADSError :=
  let base : ADSError :=
    match err_code with
    | Option.some code =>
      match error_codes code with
      | Option.some desc =>
        { err_code := Option.some code, msg := desc ++ " (" ++ toString code ++ "). " }
      | Option.none =>
        { err_code := Option.some code, msg := "Unknown Error (" ++ toString code ++ "). " }
    | Option.none => { err_code := Option.none, msg := "" }
  match text with
  | Option.some t => { base with msg := base.msg ++ t }
  | Option.none => base

/-- Attribute read `e.err_code`: Python raises `AttributeError` when the
constructor never set the attribute. -/
def ADSError_getattr_err_code (e : ADSError) : Except PyErr Int :=
  match e.err_code with
  | Option.some c => Except.ok c
  | Option.none => Except.error PyErr.attributeError

/-- Embedding of `ADSError.__str__`. -/
def ADSError_str (e : ADSError) : String :=
  "ADSError: " ++ e.msg

/-- Modelled from the spec: the fixed UDP discovery port constant
`PORT_REMOTE_UDP` defined in the external constants module (`FIXED_REMOTE_PORT`
in the spec).  Its concrete value is irrelevant to the claims. -/
def PORT_REMOTE_UDP : Nat := 48899

/-- One socket operation performed by `send_raw_udp_message`, in the order the
source issues them. -/
inductive SockOp where
  | socketOpen
  | bind (host : String) (port : Nat)
  | sendto (message : List Nat) (host : String) (port : Nat)
  | settimeout (seconds : Nat)
  | recvfrom (bufsize : Nat)
  | close
deriving DecidableEq, Repr

/-- Outcomes of the fallible socket calls, supplied by the operating system
and network environment: `bind` and `sendto` either succeed or raise, and
`recvfrom` either returns `(data, (host, port))` or raises (in particular
`PyErr.timeoutError` when the 5-second deadline elapses). -/
structure UdpEnv where
  bindResult : Except PyErr Unit
  sendtoResult : Except PyErr Unit
  recvfromResult : Except PyErr (List Nat × (String × Nat))

/-- Embedding of `send_raw_udp_message` (pyads_common.py lines 48-73) as the
trace of socket operations performed plus the returned (or raised) result.
`with closing(socket.socket(...))` opens the socket first and guarantees a
`close` on every exit path, which the model reflects by appending
`SockOp.close` to the trace of every branch; the function performs no retry
and propagates whatever `recvfrom` produced. -/
def send_raw_udp_message (env : UdpEnv) (ip_address : String) (message : List Nat)
    (expected_return_length : Nat) :
    List SockOp × Except PyErr (List Nat × (String × Nat)) :=
  let body : List SockOp × Except PyErr (List Nat × (String × Nat)) :=
    match env.bindResult with
    | Except.error e => ([SockOp.socketOpen, SockOp.bind "" 0], Except.error e)
    | Except.ok _ =>
      match env.sendtoResult with
      | Except.error e =>
        ([SockOp.socketOpen, SockOp.bind "" 0,
          SockOp.sendto message ip_address PORT_REMOTE_UDP], Except.error e)
      | Except.ok _ =>
        ([SockOp.socketOpen, SockOp.bind "" 0,
          SockOp.sendto message ip_address PORT_REMOTE_UDP,
          SockOp.settimeout 5, SockOp.recvfrom expected_return_length],
         env.recvfromResult)
  (body.1 ++ [SockOp.close], body.2)

/-- C6: for every type descriptor, decode applied to a `None` buffer returns
`None`, without raising and independently of the descriptor. -/
theorem get_value_from_ctype_data_none (pt : PlcType) :
    get_value_from_ctype_data Option.none pt = Except.ok Value.pyNone := rfl

/-- C3: `type_is_string` is true exactly for the single-character string
descriptor `PLCTYPE_STRING` and for fixed-size array descriptors whose
element descriptor is `PLCTYPE_STRING`; in particular it is false for every
scalar descriptor and for every array of non-string elements. -/
theorem type_is_string_iff (pt : PlcType) :
    type_is_string pt = true ↔
      (pt = PlcType.string ∨ ∃ n, pt = PlcType.array PlcType.string n) := by
  cases pt with
  | string => simp [type_is_string]
  | array e n =>
    cases e <;> simp [type_is_string, isPyCArrayType, arrayElemType]
  | scalar name => simp [type_is_string, isPyCArrayType]
  | structT name => simp [type_is_string, isPyCArrayType]

/-- C2: the message built by `ADSError.__init__`: a code found in the error
table yields `"<description> (<code>). "`, a code absent from the table
yields `"Unknown Error (<code>). "`, supplied text is concatenated after the
code-derived message, text alone is the whole message, and neither code nor
text yields the empty message. -/
theorem ADSError_init_message_spec (error_codes : Int → Option String)
    (code : Int) (desc text : String) :
    (error_codes code = Option.some desc →
      (ADSError_init error_codes (Option.some code) Option.none).msg
        = desc ++ " (" ++ toString code ++ "). ") ∧
    (error_codes code = Option.none →
      (ADSError_init error_codes (Option.some code) Option.none).msg
        = "Unknown Error (" ++ toString code ++ "). ") ∧
    ((ADSError_init error_codes (Option.some code) (Option.some text)).msg
      = (ADSError_init error_codes (Option.some code) Option.none).msg ++ text) ∧
    ((ADSError_init error_codes Option.none (Option.some text)).msg = text) ∧
    ((ADSError_init error_codes Option.none Option.none).msg = "") := by
  refine ⟨fun h => ?_, fun h => ?_, ?_, ?_, rfl⟩
  · simp [ADSError_init, h]
  · simp [ADSError_init, h]
  · cases h : error_codes code <;> simp [ADSError_init, h]
  · simp [ADSError_init]

/-- C10: the constructed error carries `err_code` equal to the given code
when one is provided; when no code is provided the attribute is never set,
so reading it raises `AttributeError` instead of yielding `None`. -/
theorem ADSError_err_code_attribute (error_codes : Int → Option String)
    (code : Int) (text : Option String) :
    ADSError_getattr_err_code (ADSError_init error_codes (Option.some code) text)
      = Except.ok code ∧
    ADSError_getattr_err_code (ADSError_init error_codes Option.none text)
      = Except.error PyErr.attributeError := by
  cases text <;> cases h : error_codes code <;>
    simp [ADSError_init, ADSError_getattr_err_code, h]

/-- C1 (counterexample): decode is not failure-free.  On a character buffer
whose payload is the single byte 0xFF — not valid UTF-8 — with the string
descriptor, the source evaluates `read_data.value.decode("utf-8")`, which
raises `UnicodeDecodeError`. -/
theorem get_value_from_ctype_data_raises_on_invalid_utf8 :
    get_value_from_ctype_data (Option.some (CData.strBuf [255])) PlcType.string
      = Except.error PyErr.unicodeDecodeError := rfl

/-- C1 (amended): decode returns `None` for a `None` buffer and never raises
on the fall-through paths: whenever the descriptor is neither a string type
nor an array type it returns a value (the scalar `.value` or the buffer
itself).  Any exception can arise only on the string-decoding or
array-iteration paths (non-UTF-8 payload, missing `.value`, or a
non-iterable buffer). -/
theorem get_value_from_ctype_data_total_off_string_array_paths :
    (∀ pt, get_value_from_ctype_data Option.none pt = Except.ok Value.pyNone) ∧
    (∀ d pt, type_is_string pt = false → isPyCArrayType pt = false →
      ∃ v, get_value_from_ctype_data (Option.some d) pt = Except.ok v) ∧
    (∀ d pt e, get_value_from_ctype_data (Option.some d) pt = Except.error e →
      type_is_string pt = true ∨ isPyCArrayType pt = true) := by
  refine ⟨fun pt => rfl, fun d pt h1 h2 => ?_, fun d pt e h => ?_⟩
  · cases hv : value_attr d with
    | none => exact ⟨Value.raw d, by simp [get_value_from_ctype_data, h1, h2, hv]⟩
    | some v => exact ⟨v, by simp [get_value_from_ctype_data, h1, h2, hv]⟩
  · by_cases hstr : type_is_string pt = true
    · exact Or.inl hstr
    · by_cases harr : isPyCArrayType pt = true
      · exact Or.inr harr
      · rw [Bool.not_eq_true] at hstr harr
        cases hv : value_attr d <;>
          simp [get_value_from_ctype_data, hstr, harr, hv] at h

/-- C4: for a character buffer whose descriptor is a string type (in
particular a fixed-size array of `PLCTYPE_STRING`), decode returns the byte
payload decoded as one UTF-8 string, never a sequence of per-character
values: the string check is dispatched before the generic array check. -/
theorem get_value_from_ctype_data_string_path (bs : List Nat) (pt : PlcType)
    (s : String) (hstr : type_is_string pt = true)
    (hdec : utf8Decode bs = Option.some s) :
    get_value_from_ctype_data (Option.some (CData.strBuf bs)) pt
      = Except.ok (Value.str s) ∧
    ∀ vs, get_value_from_ctype_data (Option.some (CData.strBuf bs)) pt
      ≠ Except.ok (Value.list vs) := by
  refine ⟨?_, ?_⟩ <;> simp [get_value_from_ctype_data, hstr, value_attr, hdec]

/-- Witness for C4 at a concrete input: the buffer holding bytes 104, 105
("hi") under the descriptor "array of 2 string descriptors" decodes to the
single string "hi". -/
theorem get_value_from_ctype_data_string_path_witness :
    get_value_from_ctype_data (Option.some (CData.strBuf [104, 105]))
      (PlcType.array PlcType.string 2) = Except.ok (Value.str "hi") :=
  (get_value_from_ctype_data_string_path [104, 105]
    (PlcType.array PlcType.string 2) "hi" rfl rfl).1

/-- C5: for a non-character array buffer whose descriptor is a fixed-size
array of non-string elements, decode returns the ordered list of the
buffer's decoded elements, preserving order — not a string and not the raw
buffer object. -/
theorem get_value_from_ctype_data_array_path (elems : List CData) (e : PlcType)
    (n : Nat) (h : type_is_string (PlcType.array e n) = false) :
    get_value_from_ctype_data (Option.some (CData.arr elems)) (PlcType.array e n)
      = Except.ok (Value.list (elems.map iter_elem)) ∧
    (∀ s, get_value_from_ctype_data (Option.some (CData.arr elems)) (PlcType.array e n)
      ≠ Except.ok (Value.str s)) ∧
    (∀ d, get_value_from_ctype_data (Option.some (CData.arr elems)) (PlcType.array e n)
      ≠ Except.ok (Value.raw d)) := by
  refine ⟨?_, ?_, ?_⟩ <;> simp [get_value_from_ctype_data, h, isPyCArrayType, iter_items]

/-- Witness for C5 at a concrete input: an array of 3 integers holding 1, 2,
3 decodes to the ordered sequence of the integers 1, 2, 3. -/
theorem get_value_from_ctype_data_array_path_witness :
    get_value_from_ctype_data
      (Option.some (CData.arr [CData.scalarVal 1, CData.scalarVal 2, CData.scalarVal 3]))
      (PlcType.array (PlcType.scalar "c_int") 3)
      = Except.ok (Value.list [Value.intVal 1, Value.intVal 2, Value.intVal 3]) :=
  (get_value_from_ctype_data_array_path
    [CData.scalarVal 1, CData.scalarVal 2, CData.scalarVal 3]
    (PlcType.scalar "c_int") 3 rfl).1

/-- C7: for a non-null buffer whose descriptor is neither a string type nor
an array type, decode returns the buffer's unwrapped `.value` when that
attribute exists, and otherwise returns the buffer object itself
unchanged. -/
theorem get_value_from_ctype_data_scalar_fallthrough (d : CData) (pt : PlcType)
    (h1 : type_is_string pt = false) (h2 : isPyCArrayType pt = false) :
    (∀ v, value_attr d = Option.some v →
      get_value_from_ctype_data (Option.some d) pt = Except.ok v) ∧
    (value_attr d = Option.none →
      get_value_from_ctype_data (Option.some d) pt = Except.ok (Value.raw d)) := by
  constructor
  · intro v hv
    simp [get_value_from_ctype_data, h1, h2, hv]
  · intro hv
    simp [get_value_from_ctype_data, h1, h2, hv]

/-- Witness for C7 at concrete inputs: a `c_int` scalar buffer holding 42
under a scalar descriptor decodes to 42, and a Structure buffer (no `.value`
attribute) is returned unchanged. -/
theorem get_value_from_ctype_data_scalar_fallthrough_witness :
    get_value_from_ctype_data (Option.some (CData.scalarVal 42))
      (PlcType.scalar "c_int") = Except.ok (Value.intVal 42) ∧
    get_value_from_ctype_data (Option.some (CData.record "SAdsSymbolEntry"))
      (PlcType.structT "SAdsSymbolEntry")
      = Except.ok (Value.raw (CData.record "SAdsSymbolEntry")) :=
  ⟨(get_value_from_ctype_data_scalar_fallthrough (CData.scalarVal 42)
      (PlcType.scalar "c_int") rfl rfl).1 (Value.intVal 42) rfl,
   (get_value_from_ctype_data_scalar_fallthrough (CData.record "SAdsSymbolEntry")
      (PlcType.structT "SAdsSymbolEntry") rfl rfl).2 rfl⟩

/-- C8: when bind and send succeed, the exchange sets a receive deadline of
5 seconds before its single `recvfrom`, and when the deadline elapses the
`TimeoutError` from `recvfrom` is propagated to the caller unchanged, with
no retry (the trace holds exactly one `recvfrom`) and with the socket still
closed. -/
theorem send_raw_udp_message_timeout (env : UdpEnv) (ip : String)
    (message : List Nat) (len : Nat)
    (hb : env.bindResult = Except.ok ())
    (hs : env.sendtoResult = Except.ok ())
    (ht : env.recvfromResult = Except.error PyErr.timeoutError) :
    send_raw_udp_message env ip message len
      = ([SockOp.socketOpen, SockOp.bind "" 0,
          SockOp.sendto message ip PORT_REMOTE_UDP,
          SockOp.settimeout 5, SockOp.recvfrom len, SockOp.close],
         Except.error PyErr.timeoutError) := by
  simp [send_raw_udp_message, hb, hs, ht]

/-- Witness for C8 at a concrete input: a host that never replies (the
environment returns a timeout from `recvfrom`) makes the call fail with
`TimeoutError` after the full open-bind-send-settimeout(5)-recvfrom-close
trace. -/
theorem send_raw_udp_message_timeout_witness :
    send_raw_udp_message
      { bindResult := Except.ok (), sendtoResult := Except.ok (),
        recvfromResult := Except.error PyErr.timeoutError }
      "192.168.0.100" [3, 7] 16
      = ([SockOp.socketOpen, SockOp.bind "" 0,
          SockOp.sendto [3, 7] "192.168.0.100" PORT_REMOTE_UDP,
          SockOp.settimeout 5, SockOp.recvfrom 16, SockOp.close],
         Except.error PyErr.timeoutError) :=
  send_raw_udp_message_timeout _ "192.168.0.100" [3, 7] 16 rfl rfl rfl

/-- C9: every call opens exactly one datagram socket, as its first operation,
and closes it as its last operation on every exit path — bind failure, send
failure, timeout, and success alike — so no socket leaks across calls. -/
theorem send_raw_udp_message_socket_lifecycle (env : UdpEnv) (ip : String)
    (message : List Nat) (len : Nat) :
    ∃ mid, (send_raw_udp_message env ip message len).1
        = SockOp.socketOpen :: mid ++ [SockOp.close] ∧
      ∀ op ∈ mid, op ≠ SockOp.socketOpen ∧ op ≠ SockOp.close := by
  rcases env with ⟨hb, hs, hr⟩
  cases hb with
  | error e => exact ⟨[SockOp.bind "" 0], rfl, by simp⟩
  | ok u =>
    cases hs with
    | error e2 =>
      exact ⟨[SockOp.bind "" 0, SockOp.sendto message ip PORT_REMOTE_UDP],
        rfl, by simp⟩
    | ok u2 =>
      exact ⟨[SockOp.bind "" 0, SockOp.sendto message ip PORT_REMOTE_UDP,
              SockOp.settimeout 5, SockOp.recvfrom len], rfl, by simp⟩
